import Mathlib

/-!
Shallow embedding of the `VeranoAccessoryPlugin` class from
`src/src/index.ts` (the Thermostat-service variant, the one the spec's
line references point at).  Temperatures are modelled as rationals,
JavaScript `undefined` as `Option.none`, promise rejction as `Except.error`,
and each async method as an explicit state-passing function that also
records the list of network calls it issues.  The axios responses a run
would observe are supplied by an `Env` record, one per endpoint.
-/

namespace Verano

/-- A widget inside a tile's `params` (`{value: number}` on the wire). -/
structure Widget where
  value : ℚ
deriving DecidableEq, Repr

/-- `tile.params` — the two widgets the plugin reads. -/
structure TileParams where
  widget1 : Widget
  widget2 : Widget
deriving DecidableEq, Repr

/-- One element of `response.data.tiles`. -/
structure Tile where
  id : Int
  params : TileParams
deriving DecidableEq, Repr

/-- The `ThermostatState` interface of the source. -/
structure ThermostatState where
  currentTemperature : ℚ
  targetTemperature : ℚ
  heating : Bool
deriving DecidableEq, Repr

/-- The mutable fields of the plugin object.  `sessionCookie` is an
`Option` because the source can assign `undefined` to it
(`cookies.filter(...)[0]` on an empty filter result). -/
structure PluginState where
  isAuthorized : Bool
  sessionCookie : Option String
  thermostatState : ThermostatState
  lastFetchTime : Int
deriving DecidableEq, Repr

/-- JavaScript errors observable from the promise chain: an axios
rejection carrying an HTTP status, a network-level rejection with no
response, or a runtime `TypeError` (e.g. property access on `undefined`). -/
inductive JsError
  | http (status : Nat)
  | network
  | typeError (msg : String)
deriving DecidableEq, Repr

/-- Outcome of an axios call: `success` resolves with the payload,
`failure` rejects with an error. -/
inductive HttpResult (α : Type)
  | success (a : α)
  | failure (e : JsError)
deriving DecidableEq, Repr

/-- The login response: `headers['set-cookie']` may be absent. -/
structure LoginResponse where
  setCookie : Option (List String)
deriving DecidableEq, Repr

/-- The module-data response body (`{tiles: [...]}`). -/
structure TilesResponse where
  tiles : List Tile
deriving DecidableEq, Repr

/-- Responses the backend would give, one per endpoint. -/
structure Env where
  loginResult : HttpResult LoginResponse
  tilesResult : HttpResult TilesResponse
  controlResult : HttpResult Unit
deriving DecidableEq, Repr

/-- The accessory config: `username`/`password` may be missing. -/
structure Config where
  name : String
  username : Option String
  password : Option String
deriving DecidableEq, Repr

/-- A network call issued by the plugin, with the data that leaves the
process: login credentials, the `Cookie` header, the control body. -/
inductive NetCall
  | postLogin (username password : Option String)
  | getTiles (cookie : Option String)
  | postControl (ido : Int) (params : ℚ) (moduleIndex : Int) (cookie : Option String)
deriving DecidableEq, Repr

/-- `this.TEMPERATURE_DIVIDER` -/
def TEMPERATURE_DIVIDER : ℚ := 10

/-- `this.TURN_ON_OFF_TEMPERATURE` -/
def TURN_ON_OFF_TEMPERATURE : ℚ := 10

/-- `needle.isPrefixOf hay` over char lists, written out. -/
def charListStartsWith : List Char → List Char → Bool
  | [], _ => true
  | _ :: _, [] => false
  | a :: as, b :: bs => a == b && charListStartsWith as bs

/-- substring occurrence test over char lists. -/
def charListHasSub (needle : List Char) : List Char → Bool
  | [] => charListStartsWith needle []
  | c :: rest => charListStartsWith needle (c :: rest) || charListHasSub needle rest

/-- JavaScript `cookie.includes('session')`: case-sensitive substring test
on the full `Set-Cookie` string. -/
def containsSession (cookie : String) : Bool :=
  charListHasSub "session".toList cookie.toList

/-- `requestAuthorization` (src/src/index.ts lines 404-426): posts the
credentials; on resolve it reads `headers['set-cookie']` (a missing header
makes `cookies.filter` throw, which the trailing `.catch` also handles),
stores the first cookie whose string contains `session`, and sets
`isAuthorized := true`; the `.catch` sets `isAuthorized := false` and
rethrows. -/
def requestAuthorization (cfg : Config) (s : PluginState) (env : Env) :
    Except JsError LoginResponse × PluginState × List NetCall :=
  let call := NetCall.postLogin cfg.username cfg.password
  match env.loginResult with
  | .failure e => (.error e, { s with isAuthorized := false }, [call])
  | .success r =>
    match r.setCookie with
    | none =>
        (.error (.typeError "cookies.filter is not a function"),
         { s with isAuthorized := false }, [call])
    | some cookies =>
        (.ok r,
         { s with
            sessionCookie := (cookies.filter containsSession).head?,
            isAuthorized := true },
         [call])

/-- What `fetchDataTiles` resolves with: the tiles array, or — via the
cache branch, which returns `this.thermostatState` — a value that is not
an array at all. -/
inductive TilesOrState
  | tiles (ts : List Tile)
  | cached (st : ThermostatState)
deriving DecidableEq, Repr

/-- Lines 379-382 of `fetchDataTiles`:
`if (!this.isAuthorized) { await this.requestAuthorization(); }` — a
failed authorization propagates out of the `await`. -/
def ensureAuthorized (cfg : Config) (s : PluginState) (env : Env) :
    Except JsError Unit × PluginState × List NetCall :=
  if s.isAuthorized then (.ok (), s, [])
  else
    match requestAuthorization cfg s env with
    | (.ok _, s2, cs) => (.ok (), s2, cs)
    | (.error e, s2, cs) => (.error e, s2, cs)

/-- `fetchDataTiles` (src/src/index.ts lines 369-402): serves the cache
when the last fetch is recent, else stamps `lastFetchTime`, reauthorizes
first when `!isAuthorized` (propagating its failure), then GETs the tiles;
the `.catch` sets `isAuthorized := false` and rethrows. -/
def fetchDataTiles (cfg : Config) (s : PluginState) (env : Env) (now : Int) :
    Except JsError TilesOrState × PluginState × List NetCall :=
  if s.lastFetchTime > 0 ∧ now - s.lastFetchTime < 2500 then
    (.ok (.cached s.thermostatState), s, [])
  else
    match ensureAuthorized cfg { s with lastFetchTime := now } env with
    | (.error e, s2, cs) => (.error e, s2, cs)
    | (.ok _, s2, cs) =>
      let call := NetCall.getTiles s2.sessionCookie
      match env.tilesResult with
      | .success r => (.ok (.tiles r.tiles), s2, cs ++ [call])
      | .failure e => (.error e, { s2 with isAuthorized := false }, cs ++ [call])

/-- `requestThermostatState` (src/src/index.ts lines 356-367): fetches
tiles, takes the first tile with `id === 58`, divides the two widget
values by the divider and replaces `this.thermostatState`.  On the cache
branch `tiles` is not an array and `.filter` throws; a missing tile makes
`foundTile.params` throw. -/
def requestThermostatState (cfg : Config) (s : PluginState) (env : Env) (now : Int) :
    Except JsError ThermostatState × PluginState × List NetCall :=
  match fetchDataTiles cfg s env now with
  | (.error e, s1, cs) => (.error e, s1, cs)
  | (.ok (.cached _), s1, cs) =>
      (.error (.typeError "tiles.filter is not a function"), s1, cs)
  | (.ok (.tiles ts), s1, cs) =>
      match (ts.filter (fun t => t.id == 58)).head? with
      | none =>
          (.error (.typeError "cannot read properties of undefined"), s1, cs)
      | some foundTile =>
          let targetTemperature := foundTile.params.widget1.value / TEMPERATURE_DIVIDER
          let currentTemperature := foundTile.params.widget2.value / TEMPERATURE_DIVIDER
          let st : ThermostatState :=
            { currentTemperature := currentTemperature,
              targetTemperature := targetTemperature,
              heating := decide (targetTemperature > TURN_ON_OFF_TEMPERATURE) }
          (.ok st, { s1 with thermostatState := st }, cs)

/-- `requestTemperatureChange` (src/src/index.ts lines 428-454): resets
`lastFetchTime`, posts one control record
`{ido: 139, params: target * divider, module_index: 0}` with the session
cookie; its `.catch` only logs and rethrows — it does not touch
`isAuthorized` or `thermostatState`. -/
def requestTemperatureChange (s : PluginState) (targetTemperature : ℚ) (env : Env) :
    Except JsError Unit × PluginState × List NetCall :=
  let s1 := { s with lastFetchTime := -1 }
  let call :=
    NetCall.postControl 139 (targetTemperature * TEMPERATURE_DIVIDER) 0 s1.sessionCookie
  match env.controlResult with
  | .success _ => (.ok (), s1, [call])
  | .failure e => (.error e, s1, [call])

/-- HomeKit `TargetHeatingCoolingState.OFF` -/
def TargetHeatingCoolingStateOFF : Int := 0

/-- HomeKit `TargetHeatingCoolingState.HEAT` -/
def TargetHeatingCoolingStateHEAT : Int := 1

/-- The `TargetTemperature` `'set'` handler (src/src/index.ts lines
320-325): calls `requestTemperatureChange` with the requested value and
maps resolve/reject onto `callback(null)` / `callback(error)`. -/
def onSetTargetTemperature (s : PluginState) (value : ℚ) (env : Env) :
    Option JsError × PluginState × List NetCall :=
  match requestTemperatureChange s value env with
  | (.ok _, s1, cs) => (none, s1, cs)
  | (.error e, s1, cs) => (some e, s1, cs)

/-- The `TargetHeatingCoolingState` `'set'` handler (src/src/index.ts
lines 288-301): flips the local `heating` flag; for HEAT it calls back
immediately, for OFF it writes the turn-off temperature. -/
def onSetTargetHeatingCoolingState (s : PluginState) (value : Int) (env : Env) :
    Option JsError × PluginState × List NetCall :=
  let heating := value == TargetHeatingCoolingStateHEAT
  let s1 := { s with thermostatState := { s.thermostatState with heating := heating } }
  if heating then (none, s1, [])
  else
    match requestTemperatureChange s1 TURN_ON_OFF_TEMPERATURE env with
    | (.ok _, s2, cs) => (none, s2, cs)
    | (.error e, s2, cs) => (some e, s2, cs)

/-- The field initializer of `thermostatState` (src/src/index.ts lines
228-232). -/
def initialThermostatState : ThermostatState :=
  { currentTemperature := 0, targetTemperature := 0, heating := false }

/-- The constructor (src/src/index.ts lines 239-262) as far as state and
network traffic are concerned: it performs no validation of the
credentials, initializes the fields (`isAuthorized := false`,
`sessionCookie := ''`, `lastFetchTime := -1`) and immediately starts
`requestThermostatState()`, whose outcome (also a rejection) is not
handled. -/
def construct (cfg : Config) (env : Env) (now : Int) :
    PluginState × List NetCall :=
  let s0 : PluginState :=
    { isAuthorized := false, sessionCookie := some "",
      thermostatState := initialThermostatState, lastFetchTime := -1 }
  let r := requestThermostatState cfg s0 env now
  (r.2.1, r.2.2)

/-- The `setProps` record on `TargetTemperature` (src/src/index.ts lines
326-330). -/
structure TempProps where
  minValue : ℚ
  maxValue : ℚ
  minStep : ℚ
deriving DecidableEq, Repr

/-- `{minValue: 10, maxValue: 30, minStep: 0.5}` -/
def targetTemperatureProps : TempProps :=
  { minValue := 10, maxValue := 30, minStep := 1/2 }

/-- The celsius setpoints carried by the control writes of a call list
(the wire value divided back by the divider). -/
def setpointWrites : List NetCall → List ℚ
  | [] => []
  | .postControl _ p _ _ :: rest => p / TEMPERATURE_DIVIDER :: setpointWrites rest
  | _ :: rest => setpointWrites rest

/-- The spec's range-and-step invariant relative to the declared props:
inside `[minValue, maxValue]` and an integer number of steps above the
minimum. -/
def propsOk (v : ℚ) : Prop :=
  targetTemperatureProps.minValue ≤ v ∧ v ≤ targetTemperatureProps.maxValue ∧
    ∃ k : ℤ, v - targetTemperatureProps.minValue = k * targetTemperatureProps.minStep

/-- Two consecutive `'set'` events on `TargetTemperature`, the second
arriving right after the first (well inside any debounce quiet period). -/
def twoSets (s : PluginState) (v1 v2 : ℚ) (env : Env) :
    PluginState × List NetCall :=
  let r1 := onSetTargetTemperature s v1 env
  let r2 := onSetTargetTemperature r1.2.1 v2 env
  (r2.2.1, r1.2.2 ++ r2.2.2)

/-- Number of `POST /login` calls in a trace. -/
def loginCount : List NetCall → Nat
  | [] => 0
  | .postLogin _ _ :: rest => loginCount rest + 1
  | _ :: rest => loginCount rest

/-- Number of `GET /frontend/module_data` calls in a trace. -/
def tilesReadCount : List NetCall → Nat
  | [] => 0
  | .getTiles _ :: rest => tilesReadCount rest + 1
  | _ :: rest => tilesReadCount rest

/-! Concrete fixtures used by witnesses and counterexamples. -/

/-- A config with both credentials present. -/
def cfgEx : Config :=
  { name := "Verano", username := some "alice", password := some "pw" }

/-- A config with the password missing. -/
def cfgNoPw : Config :=
  { name := "Verano", username := some "alice", password := none }

/-- An authorized session holding a cookie and a cached state of
current 19 °C / target 20 °C, with the fetch cache cold. -/
def sAuth : PluginState :=
  { isAuthorized := true, sessionCookie := some "session=abc",
    thermostatState :=
      { currentTemperature := 19, targetTemperature := 20, heating := true },
    lastFetchTime := -1 }

/-- An unauthenticated session as the constructor leaves it. -/
def sUnauth : PluginState :=
  { isAuthorized := false, sessionCookie := some "",
    thermostatState := initialThermostatState, lastFetchTime := -1 }

/-- The tile with id 58 carrying the two wire-encoded temperatures. -/
def tile58 (w1 w2 : ℚ) : Tile :=
  { id := 58, params := { widget1 := { value := w1 }, widget2 := { value := w2 } } }

/-- Backend where everything succeeds and the server reports target
wire 200 (20 °C), current wire 180 (18 °C). -/
def envOk : Env :=
  { loginResult := .success { setCookie := some ["session=abc; Path=/; HttpOnly"] },
    tilesResult := .success { tiles := [tile58 200 180] },
    controlResult := .success () }

/-- Backend where the tiles read is rejected with HTTP 401. -/
def env401 : Env :=
  { loginResult := .success { setCookie := some ["session=abc; Path=/; HttpOnly"] },
    tilesResult := .failure (.http 401),
    controlResult := .success () }

/-- Backend where the tiles read fails at the network level. -/
def envNetFail : Env :=
  { loginResult := .success { setCookie := some ["session=abc; Path=/; HttpOnly"] },
    tilesResult := .failure .network,
    controlResult := .success () }

/-- Backend whose login response carries cookies, none containing
`session`. -/
def envNoSessionCookie : Env :=
  { loginResult := .success { setCookie := some ["foo=bar; Path=/"] },
    tilesResult := .success { tiles := [tile58 200 180] },
    controlResult := .success () }

/-- Backend where login itself fails at the network level. -/
def envLoginFail : Env :=
  { loginResult := .failure .network,
    tilesResult := .failure .network,
    controlResult := .success () }

/-- Backend where the tiles read succeeds with the 215/180 tile of the
spec's parsing example. -/
def env215 : Env :=
  { loginResult := .success { setCookie := some ["session=abc; Path=/; HttpOnly"] },
    tilesResult := .success { tiles := [tile58 215 180] },
    controlResult := .success () }

/-- Backend where the control write is rejected with HTTP 401. -/
def envControl401 : Env :=
  { loginResult := .success { setCookie := some ["session=abc; Path=/; HttpOnly"] },
    tilesResult := .success { tiles := [tile58 200 180] },
    controlResult := .failure (.http 401) }

/-- The `ThermostatState` that `requestThermostatState` builds from the
found tile (lines 359-365 written as a record). -/
def parsedState (tile : Tile) : ThermostatState :=
  { currentTemperature := tile.params.widget2.value / TEMPERATURE_DIVIDER,
    targetTemperature := tile.params.widget1.value / TEMPERATURE_DIVIDER,
    heating :=
      decide (tile.params.widget1.value / TEMPERATURE_DIVIDER > TURN_ON_OFF_TEMPERATURE) }

/-! Helper lemmas shared between claims. -/

/-- A `TargetTemperature` set event issues exactly one control write and
it carries the requested value unchanged. -/
theorem setpointWrites_onSetTargetTemperature (s : PluginState) (v : ℚ) (env : Env) :
    setpointWrites (onSetTargetTemperature s v env).2.2 = [v] := by
  cases henv : env.controlResult <;>
    simp [onSetTargetTemperature, requestTemperatureChange, henv, setpointWrites,
      TEMPERATURE_DIVIDER, mul_div_assoc]

/-- `setpointWrites` distributes over trace concatenation. -/
theorem setpointWrites_append (l1 l2 : List NetCall) :
    setpointWrites (l1 ++ l2) = setpointWrites l1 ++ setpointWrites l2 := by
  induction l1 with
  | nil => rfl
  | cons c rest ih => cases c <;> simp [setpointWrites, ih]

/-- `requestAuthorization` never touches the cached thermostat state. -/
theorem requestAuthorization_thermostatState (cfg : Config) (s : PluginState) (env : Env) :
    (requestAuthorization cfg s env).2.1.thermostatState = s.thermostatState := by
  cases h : env.loginResult with
  | failure e => simp [requestAuthorization, h]
  | success r =>
    cases hc : r.setCookie <;> simp [requestAuthorization, h, hc]

/-- `ensureAuthorized` never touches the cached thermostat state. -/
theorem ensureAuthorized_thermostatState (cfg : Config) (s : PluginState) (env : Env) :
    (ensureAuthorized cfg s env).2.1.thermostatState = s.thermostatState := by
  unfold ensureAuthorized
  split
  · rfl
  · cases hr : requestAuthorization cfg s env with
    | mk res rest =>
      have hst := requestAuthorization_thermostatState cfg s env
      rw [hr] at hst
      cases res <;> simpa using hst

/-- `fetchDataTiles` never touches the cached thermostat state, on any
path. -/
theorem fetchDataTiles_thermostatState (cfg : Config) (s : PluginState) (env : Env) (now : Int) :
    (fetchDataTiles cfg s env now).2.1.thermostatState = s.thermostatState := by
  unfold fetchDataTiles
  split
  · rfl
  · cases hr : ensureAuthorized cfg { s with lastFetchTime := now } env with
    | mk res rest =>
      obtain ⟨s2, cs⟩ := rest
      have hst : s2.thermostatState = s.thermostatState := by
        have h2 := ensureAuthorized_thermostatState cfg { s with lastFetchTime := now } env
        rw [hr] at h2
        exact h2
      cases res with
      | error e => simpa using hst
      | ok r => cases ht : env.tilesResult <;> simp [ht, hst]

/-- `requestThermostatState` issues exactly the network calls of its
`fetchDataTiles` step, whatever happens afterwards. -/
theorem requestThermostatState_calls (cfg : Config) (s : PluginState) (env : Env)
    (now : Int) :
    (requestThermostatState cfg s env now).2.2 = (fetchDataTiles cfg s env now).2.2 := by
  unfold requestThermostatState
  cases hf : fetchDataTiles cfg s env now with
  | mk res rest =>
    obtain ⟨s1, cs⟩ := rest
    cases res with
    | error e => simp
    | ok t =>
      cases t with
      | cached st => simp
      | tiles ts =>
        cases hh : (ts.filter (fun t => t.id == 58)).head? <;> simp [hh]

/-- An uncached `fetchDataTiles` from an unauthenticated session always
starts with the login call. -/
theorem fetchDataTiles_unauthorized_loginFirst (cfg : Config) (s : PluginState)
    (env : Env) (now : Int)
    (hc : ¬ (s.lastFetchTime > 0 ∧ now - s.lastFetchTime < 2500))
    (ha : s.isAuthorized = false) :
    (fetchDataTiles cfg s env now).2.2.head? =
      some (NetCall.postLogin cfg.username cfg.password) := by
  cases hl : env.loginResult with
  | failure e =>
    simp [fetchDataTiles, hc, ensureAuthorized, ha, requestAuthorization, hl]
  | success r =>
    cases hsc : r.setCookie with
    | none =>
      simp [fetchDataTiles, hc, ensureAuthorized, ha, requestAuthorization, hl, hsc]
    | some l =>
      cases ht : env.tilesResult <;>
        simp [fetchDataTiles, hc, ensureAuthorized, ha, requestAuthorization, hl, hsc, ht]

/-- The uncached, authorized, successful read path of
`requestThermostatState`: one GET, state replaced by the parsed tile. -/
theorem requestThermostatState_parses (cfg : Config) (s : PluginState) (env : Env)
    (now : Int) (r : TilesResponse) (tile : Tile)
    (hc : ¬ (s.lastFetchTime > 0 ∧ now - s.lastFetchTime < 2500))
    (ha : s.isAuthorized = true)
    (ht : env.tilesResult = .success r)
    (hf : (r.tiles.filter (fun t => t.id == 58)).head? = some tile) :
    requestThermostatState cfg s env now =
      (.ok (parsedState tile),
       { s with lastFetchTime := now, thermostatState := parsedState tile },
       [NetCall.getTiles s.sessionCookie]) := by
  have hfd : fetchDataTiles cfg s env now =
      (.ok (.tiles r.tiles), { s with lastFetchTime := now },
       [NetCall.getTiles s.sessionCookie]) := by
    simp [fetchDataTiles, hc, ensureAuthorized, ha, ht]
  simp [requestThermostatState, hfd, hf, parsedState]

/-! Claim C1 — clamping and stepping of requested setpoints. -/

/-- Claim C1 counterexample: the requested value 37 is passed to the
setpoint write unchanged (wire record `{ido: 139, params: 370}`), i.e.
the written celsius value is 37, which is outside `[minC, maxC]` — no
`clampAndStep` exists on the write path. -/
theorem C1_counterexample :
    setpointWrites (onSetTargetTemperature sAuth 37 envOk).2.2 = [37] ∧
    (onSetTargetTemperature sAuth 37 envOk).2.2 =
      [NetCall.postControl 139 370 0 (some "session=abc")] ∧
    ¬ propsOk 37 := by
  refine ⟨?_, ?_, fun h => ?_⟩
  · norm_num [onSetTargetTemperature, requestTemperatureChange, envOk, sAuth,
      setpointWrites, TEMPERATURE_DIVIDER]
  · norm_num [onSetTargetTemperature, requestTemperatureChange, envOk, sAuth,
      TEMPERATURE_DIVIDER]
  · have h2 := h.2.1
    norm_num [targetTemperatureProps] at h2

/-- Claim C1 (amended): the code performs no clamping or stepping — the
`TargetTemperature` set handler passes the requested value `v` to the
setpoint write unchanged (wire value `v * 10`).  The declared
characteristic props (min 10, max 30, step 0.5) are the only range/step
constraint, so whenever the requested value already satisfies them the
written value satisfies the range-and-step invariant. -/
theorem C1_setpointPassthrough (s : PluginState) (v : ℚ) (env : Env) :
    setpointWrites (onSetTargetTemperature s v env).2.2 = [v] ∧
    (propsOk v → ∀ w ∈ setpointWrites (onSetTargetTemperature s v env).2.2, propsOk w) := by
  refine ⟨setpointWrites_onSetTargetTemperature s v env, fun hv w hw => ?_⟩
  rw [setpointWrites_onSetTargetTemperature s v env] at hw
  simp only [List.mem_singleton] at hw
  rwa [hw]

/-- Witness for C1: at the props-conforming request 21.5 °C the write
carries exactly 21.5 °C, which satisfies the invariant. -/
theorem C1_setpointPassthrough_witness :
    setpointWrites (onSetTargetTemperature sAuth (43/2) envOk).2.2 = [43/2] ∧
    (∀ w ∈ setpointWrites (onSetTargetTemperature sAuth (43/2) envOk).2.2, propsOk w) := by
  have h := C1_setpointPassthrough sAuth (43/2) envOk
  refine ⟨h.1, h.2 ?_⟩
  exact ⟨by norm_num [targetTemperatureProps], by norm_num [targetTemperatureProps],
    23, by norm_num [targetTemperatureProps]⟩

/-! Claim C2 — debouncing of rapid set requests. -/

/-- Claim C2 counterexample: two set events with the same value 22,
the second immediately after the first, issue two control writes, not
one — there is no debounce timer in the code. -/
theorem C2_counterexample :
    (twoSets sAuth 22 22 envOk).2 =
      [NetCall.postControl 139 220 0 (some "session=abc"),
       NetCall.postControl 139 220 0 (some "session=abc")] ∧
    ¬ (twoSets sAuth 22 22 envOk).2.length = 1 := by
  have h : (twoSets sAuth 22 22 envOk).2 =
      [NetCall.postControl 139 220 0 (some "session=abc"),
       NetCall.postControl 139 220 0 (some "session=abc")] := by
    norm_num [twoSets, onSetTargetTemperature, requestTemperatureChange, envOk, sAuth,
      TEMPERATURE_DIVIDER]
  exact ⟨h, by rw [h]; decide⟩

/-- Claim C2 (amended): every `TargetTemperature` set event immediately
issues its own setpoint write carrying its own value — two consecutive
set events produce exactly two writes, in order; nothing is debounced,
cancelled, coalesced or queued. -/
theorem C2_everySetWritesImmediately (s : PluginState) (v1 v2 : ℚ) (env : Env) :
    setpointWrites (twoSets s v1 v2 env).2 = [v1, v2] := by
  simp only [twoSets]
  rw [setpointWrites_append, setpointWrites_onSetTargetTemperature,
    setpointWrites_onSetTargetTemperature]
  rfl

/-! Claim C10 — HEAT is local-only, OFF writes the off threshold. -/

/-- Claim C10: setting `TargetHeatingCoolingState` to HEAT performs no
network call, reports success immediately and changes only the local
`heating` flag; setting it to OFF issues exactly one setpoint write whose
celsius value is the off threshold 10. -/
theorem C10_heatIsLocalOffWritesThreshold (s : PluginState) (env : Env) :
    onSetTargetHeatingCoolingState s TargetHeatingCoolingStateHEAT env =
      (none, { s with thermostatState := { s.thermostatState with heating := true } }, []) ∧
    (onSetTargetHeatingCoolingState s TargetHeatingCoolingStateOFF env).2.2 =
      [NetCall.postControl 139 (TURN_ON_OFF_TEMPERATURE * TEMPERATURE_DIVIDER) 0
        s.sessionCookie] ∧
    setpointWrites (onSetTargetHeatingCoolingState s TargetHeatingCoolingStateOFF env).2.2 =
      [TURN_ON_OFF_TEMPERATURE] := by
  refine ⟨?_, ?_, ?_⟩
  · simp [onSetTargetHeatingCoolingState, TargetHeatingCoolingStateHEAT]
  · cases he : env.controlResult <;>
      simp [onSetTargetHeatingCoolingState, TargetHeatingCoolingStateOFF,
        TargetHeatingCoolingStateHEAT, requestTemperatureChange, he]
  · cases he : env.controlResult <;>
      simp [onSetTargetHeatingCoolingState, TargetHeatingCoolingStateOFF,
        TargetHeatingCoolingStateHEAT, requestTemperatureChange, he, setpointWrites,
        TURN_ON_OFF_TEMPERATURE, TEMPERATURE_DIVIDER]

/-! Claim C3 — behavior on a rejected tiles read. -/

/-- Claim C3 counterexample: an authorized tiles read rejected with HTTP
401 fails straight away — zero reauthentications and a single (original,
non-retried) read — with the session invalidated; the claim demands one
reauthentication followed by one retried read. -/
theorem C3_counterexample :
    (fetchDataTiles cfgEx sAuth env401 5000).1 = .error (.http 401) ∧
    (fetchDataTiles cfgEx sAuth env401 5000).2.1.isAuthorized = false ∧
    loginCount (fetchDataTiles cfgEx sAuth env401 5000).2.2 = 0 ∧
    tilesReadCount (fetchDataTiles cfgEx sAuth env401 5000).2.2 = 1 := by
  refine ⟨?_, ?_, ?_, ?_⟩ <;>
    norm_num [fetchDataTiles, ensureAuthorized, env401, sAuth, loginCount, tilesReadCount]

/-- Claim C3 (amended): a tiles read that fails — with 401 or anything
else — invalidates the session and propagates the error with no
reauthentication and no retry inside the operation (its trace is the
single GET).  Recovery is deferred: the next uncached read starts with
the one login call before fetching. -/
theorem C3_noRetryReauthNextRead (cfg : Config) (s : PluginState) (env env2 : Env)
    (now now2 : Int) (e : JsError)
    (hc : ¬ (s.lastFetchTime > 0 ∧ now - s.lastFetchTime < 2500))
    (ha : s.isAuthorized = true)
    (ht : env.tilesResult = .failure e)
    (hc2 : ¬ (now > 0 ∧ now2 - now < 2500)) :
    (fetchDataTiles cfg s env now).1 = .error e ∧
    (fetchDataTiles cfg s env now).2.1.isAuthorized = false ∧
    (fetchDataTiles cfg s env now).2.2 = [NetCall.getTiles s.sessionCookie] ∧
    (fetchDataTiles cfg (fetchDataTiles cfg s env now).2.1 env2 now2).2.2.head? =
      some (NetCall.postLogin cfg.username cfg.password) := by
  have h1 : fetchDataTiles cfg s env now =
      (.error e, { s with isAuthorized := false, lastFetchTime := now },
       [NetCall.getTiles s.sessionCookie]) := by
    simp [fetchDataTiles, hc, ensureAuthorized, ha, ht]
  refine ⟨by rw [h1], by rw [h1], by rw [h1], ?_⟩
  rw [h1]
  exact fetchDataTiles_unauthorized_loginFirst cfg _ env2 now2 hc2 rfl

/-- Witness for C3 at a concrete 401 run and a later second read. -/
theorem C3_noRetryReauthNextRead_witness :
    (fetchDataTiles cfgEx sAuth env401 5000).2.2 =
      [NetCall.getTiles (some "session=abc")] ∧
    (fetchDataTiles cfgEx (fetchDataTiles cfgEx sAuth env401 5000).2.1 envOk 9999).2.2.head? =
      some (NetCall.postLogin (some "alice") (some "pw")) := by
  have h := C3_noRetryReauthNextRead cfgEx sAuth env401 envOk 5000 9999 (.http 401)
    (fun h => absurd h.1 (by norm_num [sAuth])) rfl rfl
    (fun h => absurd h.2 (by norm_num))
  exact ⟨h.2.2.1, h.2.2.2⟩

/-! Claim C4 — optimistic target preservation across a refresh. -/

/-- Claim C4 counterexample: with target 20 cached, a successful write of
22 followed by a refresh while the server still reports wire 200 leaves
the reported target at 20, not the requested 22 — the server-read target
overwrites the requested one. -/
theorem C4_counterexample :
    (requestThermostatState cfgEx (requestTemperatureChange sAuth 22 envOk).2.1
        envOk 5000).2.1.thermostatState.targetTemperature = 20 ∧
    (20 : ℚ) ≠ 22 := by
  constructor
  · norm_num [requestTemperatureChange, requestThermostatState, fetchDataTiles,
      ensureAuthorized, envOk, sAuth, tile58, TEMPERATURE_DIVIDER,
      TURN_ON_OFF_TEMPERATURE]
  · norm_num

/-- Claim C4 (amended): there is no optimistic target: a setpoint write
leaves the cached `ThermostatState` untouched and resets the fetch cache
(`lastFetchTime := -1`), so the next refresh goes to the network and
unconditionally replaces the local target with the server-reported
value. -/
theorem C4_serverTargetOverwrites (cfg : Config) (s : PluginState) (v : ℚ)
    (env env2 : Env) (now : Int) (r : TilesResponse) (tile : Tile)
    (ha : s.isAuthorized = true)
    (ht : env2.tilesResult = .success r)
    (hf : (r.tiles.filter (fun t => t.id == 58)).head? = some tile) :
    (requestTemperatureChange s v env).2.1.thermostatState = s.thermostatState ∧
    (requestTemperatureChange s v env).2.1.lastFetchTime = -1 ∧
    (requestThermostatState cfg (requestTemperatureChange s v env).2.1
        env2 now).2.1.thermostatState.targetTemperature =
      tile.params.widget1.value / TEMPERATURE_DIVIDER := by
  have hw : (requestTemperatureChange s v env).2.1 = { s with lastFetchTime := -1 } := by
    cases he : env.controlResult <;> simp [requestTemperatureChange, he]
  refine ⟨by rw [hw], by rw [hw], ?_⟩
  rw [hw]
  rw [requestThermostatState_parses cfg { s with lastFetchTime := -1 } env2 now r tile
    (fun h => absurd h.1 (by norm_num)) ha ht hf]
  simp [parsedState]

/-- Witness for C4 at the concrete write-22-then-refresh run: the server
value 20 wins. -/
theorem C4_serverTargetOverwrites_witness :
    (requestTemperatureChange sAuth 22 envOk).2.1.thermostatState = sAuth.thermostatState ∧
    (requestThermostatState cfgEx (requestTemperatureChange sAuth 22 envOk).2.1
        envOk 5000).2.1.thermostatState.targetTemperature = 20 := by
  have h := C4_serverTargetOverwrites cfgEx sAuth 22 envOk envOk 5000
    { tiles := [tile58 200 180] } (tile58 200 180) rfl rfl (by rfl)
  refine ⟨h.1, ?_⟩
  rw [h.2.2]
  norm_num [tile58, TEMPERATURE_DIVIDER]

/-! Claim C5 — parsing the tiles response. -/

/-- Claim C5: a successful uncached read that finds the id-58 tile parses
it as target = widget1 / divider, current = widget2 / divider, heating =
(target > off threshold), and that becomes the reported state. -/
theorem C5_parseTiles (cfg : Config) (s : PluginState) (env : Env)
    (now : Int) (r : TilesResponse) (tile : Tile)
    (hc : ¬ (s.lastFetchTime > 0 ∧ now - s.lastFetchTime < 2500))
    (ha : s.isAuthorized = true)
    (ht : env.tilesResult = .success r)
    (hf : (r.tiles.filter (fun t => t.id == 58)).head? = some tile) :
    (requestThermostatState cfg s env now).1 =
      .ok { currentTemperature := tile.params.widget2.value / TEMPERATURE_DIVIDER,
            targetTemperature := tile.params.widget1.value / TEMPERATURE_DIVIDER,
            heating := decide (tile.params.widget1.value / TEMPERATURE_DIVIDER >
              TURN_ON_OFF_TEMPERATURE) } := by
  rw [requestThermostatState_parses cfg s env now r tile hc ha ht hf]
  rfl

/-- Witness for C5 at the spec's example: widget1 = 215, widget2 = 180,
divider 10, off threshold 10 parse to target 21.5, current 18, heating
true. -/
theorem C5_parseTiles_witness :
    (requestThermostatState cfgEx sAuth env215 5000).1 =
      .ok { currentTemperature := 18, targetTemperature := 43/2, heating := true } := by
  have h := C5_parseTiles cfgEx sAuth env215 5000 { tiles := [tile58 215 180] }
    (tile58 215 180) (fun h => absurd h.1 (by norm_num [sAuth])) rfl rfl (by rfl)
  rw [h]
  norm_num [tile58, TEMPERATURE_DIVIDER, TURN_ON_OFF_TEMPERATURE]

/-! Claim C6 — authorization success and failure. -/

/-- Claim C6 counterexample: a successful login whose only cookie is
`foo=bar; Path=/` — no session cookie at all — resolves successfully and
marks the session authorized with `sessionCookie = undefined`, instead of
failing and staying unauthenticated. -/
theorem C6_counterexample :
    (requestAuthorization cfgEx sUnauth envNoSessionCookie).2.1.isAuthorized = true ∧
    (requestAuthorization cfgEx sUnauth envNoSessionCookie).2.1.sessionCookie = none ∧
    (requestAuthorization cfgEx sUnauth envNoSessionCookie).1 =
      .ok { setCookie := some ["foo=bar; Path=/"] } := by
  have hcs : containsSession "foo=bar; Path=/" = false := by decide
  refine ⟨?_, ?_, ?_⟩ <;>
    simp [requestAuthorization, envNoSessionCookie, sUnauth, hcs]

/-- Claim C6 (amended): `requestAuthorization` fails and leaves the
session unauthenticated on a rejected login or a missing `set-cookie`
header; but when the header is present it unconditionally marks the
session authorized, storing the first cookie string containing the
substring `session` whole — attributes not stripped — and `undefined`
when no cookie matches. -/
theorem C6_authStoresWholeCookie (cfg : Config) (s : PluginState) (env : Env) :
    (∀ e, env.loginResult = .failure e →
      (requestAuthorization cfg s env).1 = .error e ∧
      (requestAuthorization cfg s env).2.1.isAuthorized = false) ∧
    (∀ r, env.loginResult = .success r → r.setCookie = none →
      (requestAuthorization cfg s env).1 =
        .error (.typeError "cookies.filter is not a function") ∧
      (requestAuthorization cfg s env).2.1.isAuthorized = false) ∧
    (∀ r l, env.loginResult = .success r → r.setCookie = some l →
      (requestAuthorization cfg s env).1 = .ok r ∧
      (requestAuthorization cfg s env).2.1.isAuthorized = true ∧
      (requestAuthorization cfg s env).2.1.sessionCookie =
        (l.filter containsSession).head?) := by
  refine ⟨fun e he => ?_, fun r hr hsc => ?_, fun r l hr hsc => ?_⟩
  · constructor <;> simp [requestAuthorization, he]
  · constructor <;> simp [requestAuthorization, hr, hsc]
  · refine ⟨?_, ?_, ?_⟩ <;> simp [requestAuthorization, hr, hsc]

/-- Witness for C6: with the cookie `session=abc; Path=/; HttpOnly`
present, login succeeds, authorizes, and stores the whole string with
its attributes. -/
theorem C6_authStoresWholeCookie_witness :
    (requestAuthorization cfgEx sUnauth envOk).1 =
      .ok { setCookie := some ["session=abc; Path=/; HttpOnly"] } ∧
    (requestAuthorization cfgEx sUnauth envOk).2.1.isAuthorized = true ∧
    (requestAuthorization cfgEx sUnauth envOk).2.1.sessionCookie =
      some "session=abc; Path=/; HttpOnly" := by
  have h := (C6_authStoresWholeCookie cfgEx sUnauth envOk).2.2
    { setCookie := some ["session=abc; Path=/; HttpOnly"] }
    ["session=abc; Path=/; HttpOnly"] rfl rfl
  have hcs : containsSession "session=abc; Path=/; HttpOnly" = true := by decide
  refine ⟨h.1, h.2.1, ?_⟩
  rw [h.2.2]
  simp [hcs]

/-! Claim C7 — construction with missing credentials. -/

/-- Claim C7 counterexample: constructing with the password missing does
not fail at all — it immediately issues the login network call, with
`username = alice` and an undefined password. -/
theorem C7_counterexample :
    (construct cfgNoPw envLoginFail 0).2 = [NetCall.postLogin (some "alice") none] ∧
    (construct cfgNoPw envLoginFail 0).2 ≠ [] := by
  have h : (construct cfgNoPw envLoginFail 0).2 =
      [NetCall.postLogin (some "alice") none] := by
    norm_num [construct, requestThermostatState, fetchDataTiles, ensureAuthorized,
      requestAuthorization, envLoginFail, cfgNoPw, initialThermostatState]
  exact ⟨h, by rw [h]; simp⟩

/-- Claim C7 (amended): construction validates nothing and cannot fail —
whatever the config, it immediately starts the initial state fetch whose
first network call is the login request carrying the configured
credentials, missing ones included. -/
theorem C7_noValidationLoginFirst (cfg : Config) (env : Env) (now : Int) :
    (construct cfg env now).2.head? =
      some (NetCall.postLogin cfg.username cfg.password) := by
  unfold construct
  simp only [requestThermostatState_calls]
  exact fetchDataTiles_unauthorized_loginFirst cfg _ env now
    (fun h => absurd h.1 (by norm_num)) rfl

/-! Claim C8 — failing refresh: propagation and atomicity. -/

/-- Claim C8 counterexample: a refresh whose tiles read fails at the
network level is not swallowed — `requestThermostatState` rejects, and
its callers hand that rejection on (`callback(error)`, and the
constructor's initial call has no handler at all); the cached state does
survive unchanged. -/
theorem C8_counterexample :
    (requestThermostatState cfgEx sAuth envNetFail 5000).1 = .error .network ∧
    (requestThermostatState cfgEx sAuth envNetFail 5000).2.1.thermostatState =
      sAuth.thermostatState := by
  constructor <;>
    norm_num [requestThermostatState, fetchDataTiles, ensureAuthorized, envNetFail, sAuth]

/-- Claim C8 (amended): a failing refresh propagates its error to the
caller rather than swallowing it, but it is atomic for the cached state:
whenever `requestThermostatState` rejects, the previous
`ThermostatState` — current temperature, target temperature and heating
flag — is left entirely unchanged. -/
theorem C8_refreshFailureKeepsState (cfg : Config) (s : PluginState) (env : Env)
    (now : Int) (e : JsError)
    (h : (requestThermostatState cfg s env now).1 = .error e) :
    (requestThermostatState cfg s env now).2.1.thermostatState = s.thermostatState := by
  cases hf : fetchDataTiles cfg s env now with
  | mk res rest =>
    obtain ⟨s1, cs⟩ := rest
    have hst : s1.thermostatState = s.thermostatState := by
      have h2 := fetchDataTiles_thermostatState cfg s env now
      rw [hf] at h2
      exact h2
    cases res with
    | error e2 => simpa [requestThermostatState, hf] using hst
    | ok t =>
      cases t with
      | cached st => simpa [requestThermostatState, hf] using hst
      | tiles ts =>
        cases hh : ts.find? (fun t => t.id == 58) with
        | none => simpa [requestThermostatState, hf, hh] using hst
        | some tile => simp [requestThermostatState, hf, hh] at h

/-- Witness for C8 at the concrete failing run. -/
theorem C8_refreshFailureKeepsState_witness :
    (requestThermostatState cfgEx sAuth envNetFail 5000).2.1.thermostatState =
      sAuth.thermostatState := by
  exact C8_refreshFailureKeepsState cfgEx sAuth envNetFail 5000 .network
    (by norm_num [requestThermostatState, fetchDataTiles, ensureAuthorized,
      envNetFail, sAuth])

/-! Claim C9 — the session state machine. -/

/-- Claim C9 counterexample: a setpoint write rejected with HTTP 401
leaves `isAuthorized = true` — a write rejected as unauthenticated does
not move the session to Unauthenticated, contradicting the claimed state
machine. -/
theorem C9_counterexample :
    sAuth.isAuthorized = true ∧
    (requestTemperatureChange sAuth 22 envControl401).1 = .error (.http 401) ∧
    (requestTemperatureChange sAuth 22 envControl401).2.1.isAuthorized = true := by
  refine ⟨rfl, ?_, ?_⟩ <;> simp [requestTemperatureChange, envControl401, sAuth]

/-- Claim C9 (amended): `isAuthorized` is governed by reads and logins
only — a failing tiles fetch clears it whatever the failure kind (network
errors included, not only 401/403), a failing login clears it, a
successful login with a `set-cookie` header sets it, and a setpoint write
never changes it, not even when rejected with 401. -/
theorem C9_authFlagTransitions (cfg : Config) (s : PluginState) (env : Env)
    (now : Int) :
    (∀ v, (requestTemperatureChange s v env).2.1.isAuthorized = s.isAuthorized) ∧
    (∀ e, s.isAuthorized = true →
      ¬ (s.lastFetchTime > 0 ∧ now - s.lastFetchTime < 2500) →
      env.tilesResult = .failure e →
      (fetchDataTiles cfg s env now).2.1.isAuthorized = false) ∧
    (∀ e, env.loginResult = .failure e →
      (requestAuthorization cfg s env).2.1.isAuthorized = false) ∧
    (∀ r l, env.loginResult = .success r → r.setCookie = some l →
      (requestAuthorization cfg s env).2.1.isAuthorized = true) := by
  refine ⟨fun v => ?_, fun e ha hc ht => ?_, fun e he => ?_, fun r l hr hsc => ?_⟩
  · cases he : env.controlResult <;> simp [requestTemperatureChange, he]
  · simp [fetchDataTiles, hc, ensureAuthorized, ha, ht]
  · simp [requestAuthorization, he]
  · simp [requestAuthorization, hr, hsc]

/-- Witness for C9: all four transition facts at concrete runs — the
401-rejected write keeps it true, a network-failed read clears it, a
failed login clears it, a successful login sets it. -/
theorem C9_authFlagTransitions_witness :
    (requestTemperatureChange sAuth 22 envControl401).2.1.isAuthorized =
      sAuth.isAuthorized ∧
    (fetchDataTiles cfgEx sAuth envNetFail 5000).2.1.isAuthorized = false ∧
    (requestAuthorization cfgEx sUnauth envLoginFail).2.1.isAuthorized = false ∧
    (requestAuthorization cfgEx sUnauth envOk).2.1.isAuthorized = true := by
  exact ⟨(C9_authFlagTransitions cfgEx sAuth envControl401 5000).1 22,
    (C9_authFlagTransitions cfgEx sAuth envNetFail 5000).2.1 .network rfl
      (fun h => absurd h.1 (by norm_num [sAuth])) rfl,
    (C9_authFlagTransitions cfgEx sUnauth envLoginFail 0).2.2.1 .network rfl,
    (C9_authFlagTransitions cfgEx sUnauth envOk 0).2.2.2
      { setCookie := some ["session=abc; Path=/; HttpOnly"] }
      ["session=abc; Path=/; HttpOnly"] rfl rfl⟩

end Verano
